import Mathlib

/-!
Verification of the TFTrainer training/evaluation driver
(src/transformers/trainer_tf.py).

The trainer is orchestration glue around an external numerical framework
(TensorFlow).  The embedding below models the trainer's own control flow
faithfully — validation checks, dataset-pipeline construction, the periodic
eval/log/checkpoint guards of the inner training loop, gradient-accumulation
orchestration, and the metric-key renaming of the prediction loop — while the
framework's numeric computations (losses, gradients, learning-rate schedules)
are abstracted as parameters.  Tensor values are stood in for by integers
(one scalar per trainable variable) and real-valued metrics by rationals;
Python's real division followed by math.floor / math.ceil is modelled as
exact rational division.
-/

namespace TFTrainer

/-- The fields of TFTrainingArguments that TFTrainer reads. -/
structure TrainingArgs where
  train_batch_size : Nat
  eval_batch_size : Nat
  gradient_accumulation_steps : Nat
  dataloader_drop_last : Bool
  seed : Nat
  max_grad_norm : Int
  evaluate_during_training : Bool
  eval_steps : Nat
  logging_steps : Nat
  logging_first_step : Bool
  save_steps : Nat
  max_steps : Int
  num_train_epochs : Nat
  debug : Bool
deriving Repr, DecidableEq

/-- A tf.data.Dataset input, abstracted to its asserted cardinality as
returned by tf.data.experimental.cardinality (negative encodes
unknown/infinite cardinality). -/
structure Dataset where
  cardinality : Int
deriving Repr, DecidableEq

/-- A tf.data pipeline expression: the trainer composes these combinators on
an input dataset and finally hands the result to
strategy.experimental_distribute_dataset. -/
inductive Pipeline where
  | source (d : Dataset)
  | repeat_ (p : Pipeline)
  | shuffle (p : Pipeline) (buffer : Int) (seed : Nat)
  | batch (p : Pipeline) (batch_size : Nat) (drop_remainder : Bool)
  | prefetch (p : Pipeline)
  | distribute (p : Pipeline)
deriving Repr, DecidableEq

/-- math.floor(n / b) for integer n, b (exact division then floor):
floor division. -/
def floor_div (n b : Int) : Int := Int.fdiv n b

/-- math.ceil(n / b) for integer n, b (exact division then ceiling). -/
def ceil_div (n b : Int) : Int := -(Int.fdiv (-n) b)

/-- approx = math.floor if self.args.dataloader_drop_last else math.ceil,
applied to num_examples / batch_size. -/
def approx_steps (drop_last : Bool) (n b : Int) : Int :=
  if drop_last then floor_div n b else ceil_div n b

/-- Result of get_train_tfdataset, together with the two trainer attributes
the method assigns (self.total_train_batch_size, self.num_train_examples). -/
structure TrainSetup where
  total_train_batch_size : Nat
  num_train_examples : Int
  dataset : Pipeline
deriving Repr, DecidableEq

/-- TFTrainer.get_train_tfdataset (trainer_tf.py lines 116-136). -/
def get_train_tfdataset (args : TrainingArgs) (train_dataset : Option Dataset) :
    Except String TrainSetup :=
  match train_dataset with
  | none => .error "Trainer: training requires a train_dataset."
  | some td =>
    let total_train_batch_size := args.train_batch_size * args.gradient_accumulation_steps
    let num_train_examples := td.cardinality
    if num_train_examples < 0 then
      .error "The training dataset must have an asserted cardinality"
    else
      .ok { total_train_batch_size := total_train_batch_size
            num_train_examples := num_train_examples
            dataset := .distribute (.prefetch (.batch
              (.shuffle (.repeat_ (.source td)) num_train_examples args.seed)
              total_train_batch_size args.dataloader_drop_last)) }

/-- Result of get_eval_tfdataset / get_test_tfdataset: the distributed
dataset, the step count, and the number of examples. -/
structure EvalSetup where
  dataset : Pipeline
  steps : Int
  num_examples : Int
deriving Repr, DecidableEq

/-- The common body of get_eval_tfdataset and get_test_tfdataset once the
dataset is chosen (trainer_tf.py lines 150-163 and 173-186). -/
def build_eval_pipeline (args : TrainingArgs) (ed : Dataset) : Except String EvalSetup :=
  let num_examples := ed.cardinality
  if num_examples < 0 then
    .error "The training dataset must have an asserted cardinality"
  else
    .ok { dataset := .distribute (.prefetch (.batch (.repeat_ (.source ed))
            args.eval_batch_size args.dataloader_drop_last))
          steps := approx_steps args.dataloader_drop_last num_examples (args.eval_batch_size : Int)
          num_examples := num_examples }

/-- TFTrainer.get_eval_tfdataset (trainer_tf.py lines 138-163): the
eval_dataset argument overrides self.eval_dataset when present. -/
def get_eval_tfdataset (args : TrainingArgs)
    (self_eval_dataset eval_dataset : Option Dataset) : Except String EvalSetup :=
  match eval_dataset, self_eval_dataset with
  | none, none => .error "Trainer: evaluation requires an eval_dataset."
  | some d, _ => build_eval_pipeline args d
  | none, some d => build_eval_pipeline args d

/-- TFTrainer.get_test_tfdataset (trainer_tf.py lines 165-186). -/
def get_test_tfdataset (args : TrainingArgs) (test_dataset : Dataset) :
    Except String EvalSetup :=
  build_eval_pipeline args test_dataset

/-- The dataset get_eval_tfdataset operates on: the argument when passed,
otherwise self.eval_dataset. -/
def chosen_eval_dataset (self_eval_dataset eval_dataset : Option Dataset) :
    Option Dataset :=
  match eval_dataset with
  | some d => some d
  | none => self_eval_dataset

/-- self.steps_per_epoch as computed at the start of train()
(trainer_tf.py lines 370-376). -/
def steps_per_epoch (args : TrainingArgs)
    (num_train_examples total_train_batch_size : Int) : Int :=
  if args.max_steps > 0 then args.max_steps
  else approx_steps args.dataloader_drop_last num_train_examples total_train_batch_size

/-- Sample arguments used to instantiate hypotheses of the theorems below. -/
def argsW : TrainingArgs where
  train_batch_size := 2
  eval_batch_size := 3
  gradient_accumulation_steps := 1
  dataloader_drop_last := false
  seed := 42
  max_grad_norm := 5
  evaluate_during_training := true
  eval_steps := 2
  logging_steps := 2
  logging_first_step := false
  save_steps := 3
  max_steps := 0
  num_train_epochs := 1
  debug := false

/-- approx_steps computes the floor of the exact quotient when drop_last
holds and its ceiling otherwise (for a positive batch size). -/
theorem approx_steps_eq_floor_ceil (drop_last : Bool) (n b : Nat) (_hb : 0 < b) :
    approx_steps drop_last (n : Int) (b : Int) =
      if drop_last then Int.floor ((n : ℚ) / (b : ℚ))
      else Int.ceil ((n : ℚ) / (b : ℚ)) := by
  have hb0 : (0 : Int) ≤ (b : Int) := Int.natCast_nonneg b
  cases drop_last with
  | false =>
      have h1 : ((n : ℚ) / (b : ℚ)) = -((((-(n : Int)) : Int) : ℚ) / ((b : Nat) : ℚ)) := by
        push_cast
        ring
      simp only [approx_steps, ceil_div, if_false, Bool.false_eq_true, ite_false]
      rw [h1, Int.ceil_neg, Rat.floor_intCast_div_natCast, Int.fdiv_eq_ediv _ hb0]
  | true =>
      simp only [approx_steps, floor_div, ite_true]
      rw [Int.fdiv_eq_ediv _ hb0,
        show ((n : ℚ) / (b : ℚ)) = (((n : Int) : ℚ) / ((b : Nat) : ℚ)) by push_cast; ring,
        Rat.floor_intCast_div_natCast]

/-- Success case of get_train_tfdataset, shared by the theorems below. -/
theorem get_train_tfdataset_ok (args : TrainingArgs) (td : Dataset)
    (h : 0 ≤ td.cardinality) :
    get_train_tfdataset args (some td) = .ok
      { total_train_batch_size := args.train_batch_size * args.gradient_accumulation_steps
        num_train_examples := td.cardinality
        dataset := .distribute (.prefetch (.batch
          (.shuffle (.repeat_ (.source td)) td.cardinality args.seed)
          (args.train_batch_size * args.gradient_accumulation_steps)
          args.dataloader_drop_last)) } := by
  simp [get_train_tfdataset, Int.not_lt.mpr h]

/-- Success case of build_eval_pipeline, shared by the theorems below. -/
theorem build_eval_pipeline_ok (args : TrainingArgs) (ed : Dataset)
    (h : 0 ≤ ed.cardinality) :
    build_eval_pipeline args ed = .ok
      { dataset := .distribute (.prefetch (.batch (.repeat_ (.source ed))
          args.eval_batch_size args.dataloader_drop_last))
        steps := approx_steps args.dataloader_drop_last ed.cardinality
          (args.eval_batch_size : Int)
        num_examples := ed.cardinality } := by
  simp [build_eval_pipeline, Int.not_lt.mpr h]

/-- C2: get_train_tfdataset fails with
ValueError("Trainer: training requires a train_dataset.") when
self.train_dataset is None, fails with a ValueError when the asserted
cardinality is negative, and otherwise succeeds, returning the distributed
dataset. -/
theorem get_train_tfdataset_validation (args : TrainingArgs) (td : Dataset) :
    get_train_tfdataset args none = .error "Trainer: training requires a train_dataset." ∧
    (td.cardinality < 0 →
      get_train_tfdataset args (some td) =
        .error "The training dataset must have an asserted cardinality") ∧
    (0 ≤ td.cardinality →
      ∃ r, get_train_tfdataset args (some td) = .ok r ∧
        r.dataset = .distribute (.prefetch (.batch
          (.shuffle (.repeat_ (.source td)) td.cardinality args.seed)
          (args.train_batch_size * args.gradient_accumulation_steps)
          args.dataloader_drop_last))) := by
  refine ⟨rfl, fun h => ?_, fun h => ?_⟩
  · simp [get_train_tfdataset, h]
  · exact ⟨_, get_train_tfdataset_ok args td h, rfl⟩

/-- Witness for C2 at concrete inputs. -/
theorem get_train_tfdataset_validation_witness :
    get_train_tfdataset argsW none = .error "Trainer: training requires a train_dataset." ∧
    ((Dataset.mk 4).cardinality < 0 →
      get_train_tfdataset argsW (some (Dataset.mk 4)) =
        .error "The training dataset must have an asserted cardinality") ∧
    (0 ≤ (Dataset.mk 4).cardinality →
      ∃ r, get_train_tfdataset argsW (some (Dataset.mk 4)) = .ok r ∧
        r.dataset = .distribute (.prefetch (.batch
          (.shuffle (.repeat_ (.source (Dataset.mk 4))) (Dataset.mk 4).cardinality argsW.seed)
          (argsW.train_batch_size * argsW.gradient_accumulation_steps)
          argsW.dataloader_drop_last))) :=
  get_train_tfdataset_validation argsW (Dataset.mk 4)

/-- C7: on a dataset with nonnegative asserted cardinality,
get_train_tfdataset builds repeat, then shuffle over num_train_examples
elements with seed args.seed, then batch with size
train_batch_size * gradient_accumulation_steps dropping the remainder iff
args.dataloader_drop_last, then prefetch, then distributes, and records
total_train_batch_size = train_batch_size * gradient_accumulation_steps. -/
theorem get_train_tfdataset_pipeline (args : TrainingArgs) (td : Dataset)
    (h : 0 ≤ td.cardinality) :
    get_train_tfdataset args (some td) = .ok
      { total_train_batch_size := args.train_batch_size * args.gradient_accumulation_steps
        num_train_examples := td.cardinality
        dataset := .distribute (.prefetch (.batch
          (.shuffle (.repeat_ (.source td)) td.cardinality args.seed)
          (args.train_batch_size * args.gradient_accumulation_steps)
          args.dataloader_drop_last)) } :=
  get_train_tfdataset_ok args td h

/-- Witness for C7 at concrete inputs. -/
theorem get_train_tfdataset_pipeline_witness :
    0 ≤ (Dataset.mk 4).cardinality ∧
    get_train_tfdataset argsW (some (Dataset.mk 4)) = .ok
      { total_train_batch_size := argsW.train_batch_size * argsW.gradient_accumulation_steps
        num_train_examples := (Dataset.mk 4).cardinality
        dataset := .distribute (.prefetch (.batch
          (.shuffle (.repeat_ (.source (Dataset.mk 4))) (Dataset.mk 4).cardinality argsW.seed)
          (argsW.train_batch_size * argsW.gradient_accumulation_steps)
          argsW.dataloader_drop_last)) } :=
  ⟨by decide, get_train_tfdataset_pipeline argsW (Dataset.mk 4) (by decide)⟩

/-- C3: get_eval_tfdataset fails exactly when both the argument and
self.eval_dataset are None, or when the chosen dataset's cardinality is
negative; a passed argument overrides self.eval_dataset; on success the
distributed dataset, the step count, and the number of examples are
returned. -/
theorem get_eval_tfdataset_validation (args : TrainingArgs)
    (self_eval_dataset eval_dataset : Option Dataset) :
    ((∃ e, get_eval_tfdataset args self_eval_dataset eval_dataset = .error e) ↔
      (eval_dataset = none ∧ self_eval_dataset = none) ∨
      (∃ d, chosen_eval_dataset self_eval_dataset eval_dataset = some d ∧
        d.cardinality < 0)) ∧
    (∀ d, eval_dataset = some d →
      get_eval_tfdataset args self_eval_dataset eval_dataset =
        build_eval_pipeline args d) ∧
    (∀ d, chosen_eval_dataset self_eval_dataset eval_dataset = some d →
      0 ≤ d.cardinality →
      get_eval_tfdataset args self_eval_dataset eval_dataset = .ok
        { dataset := .distribute (.prefetch (.batch (.repeat_ (.source d))
            args.eval_batch_size args.dataloader_drop_last))
          steps := approx_steps args.dataloader_drop_last d.cardinality
            (args.eval_batch_size : Int)
          num_examples := d.cardinality }) := by
  refine ⟨?_, ?_, ?_⟩
  · cases eval_dataset with
    | some d =>
        simp only [get_eval_tfdataset, chosen_eval_dataset, build_eval_pipeline]
        by_cases hc : d.cardinality < 0
        · simp [hc]
        · simp [hc, Int.not_lt.mp hc]
    | none =>
        cases self_eval_dataset with
        | none => simp [get_eval_tfdataset, chosen_eval_dataset]
        | some d =>
            simp only [get_eval_tfdataset, chosen_eval_dataset, build_eval_pipeline]
            by_cases hc : d.cardinality < 0
            · simp [hc]
            · simp [hc, Int.not_lt.mp hc]
  · intro d hd
    cases eval_dataset with
    | some d2 =>
        cases hd
        cases self_eval_dataset <;> rfl
    | none => cases hd
  · intro d hd h
    have hbody := build_eval_pipeline_ok args d h
    cases eval_dataset with
    | some d2 =>
        have : d2 = d := by
          simpa [chosen_eval_dataset] using hd
        subst this
        cases self_eval_dataset <;> exact hbody
    | none =>
        cases self_eval_dataset with
        | none => cases hd
        | some d2 =>
            have : d2 = d := by
              simpa [chosen_eval_dataset] using hd
            subst this
            exact hbody

/-- Witness for C3 at concrete inputs. -/
theorem get_eval_tfdataset_validation_witness :
    ((∃ e, get_eval_tfdataset argsW none (some (Dataset.mk 5)) = .error e) ↔
      ((some (Dataset.mk 5) : Option Dataset) = none ∧ (none : Option Dataset) = none) ∨
      (∃ d, chosen_eval_dataset none (some (Dataset.mk 5)) = some d ∧
        d.cardinality < 0)) ∧
    (∀ d, (some (Dataset.mk 5) : Option Dataset) = some d →
      get_eval_tfdataset argsW none (some (Dataset.mk 5)) =
        build_eval_pipeline argsW d) ∧
    (∀ d, chosen_eval_dataset none (some (Dataset.mk 5)) = some d →
      0 ≤ d.cardinality →
      get_eval_tfdataset argsW none (some (Dataset.mk 5)) = .ok
        { dataset := .distribute (.prefetch (.batch (.repeat_ (.source d))
            argsW.eval_batch_size argsW.dataloader_drop_last))
          steps := approx_steps argsW.dataloader_drop_last d.cardinality
            (argsW.eval_batch_size : Int)
          num_examples := d.cardinality }) :=
  get_eval_tfdataset_validation argsW none (some (Dataset.mk 5))

/-- C9: for a dataset of asserted cardinality n, the step count returned by
get_eval_tfdataset and get_test_tfdataset is floor(n / eval_batch_size)
under dataloader_drop_last and ceil(n / eval_batch_size) otherwise, together
with the example count n; and when max_steps <= 0, steps_per_epoch in
train() is the floor resp. ceiling of
num_train_examples / total_train_batch_size by the same rule. -/
theorem step_counts_floor_ceil (args : TrainingArgs) (ed : Dataset) (n : Nat)
    (hn : ed.cardinality = (n : Int)) (hb : 0 < args.eval_batch_size)
    (ntr tbs : Nat) (htbs : 0 < tbs) (hms : args.max_steps ≤ 0) :
    (∃ r, get_eval_tfdataset args none (some ed) = .ok r ∧
      r.num_examples = (n : Int) ∧
      r.steps = if args.dataloader_drop_last
        then Int.floor ((n : ℚ) / (args.eval_batch_size : ℚ))
        else Int.ceil ((n : ℚ) / (args.eval_batch_size : ℚ))) ∧
    (∃ r, get_test_tfdataset args ed = .ok r ∧
      r.num_examples = (n : Int) ∧
      r.steps = if args.dataloader_drop_last
        then Int.floor ((n : ℚ) / (args.eval_batch_size : ℚ))
        else Int.ceil ((n : ℚ) / (args.eval_batch_size : ℚ))) ∧
    steps_per_epoch args (ntr : Int) (tbs : Int) =
      (if args.dataloader_drop_last
        then Int.floor ((ntr : ℚ) / (tbs : ℚ))
        else Int.ceil ((ntr : ℚ) / (tbs : ℚ))) := by
  have hcard : ¬ ed.cardinality < 0 := by
    rw [hn]
    exact Int.not_lt.mpr (Int.natCast_nonneg n)
  have hsteps : approx_steps args.dataloader_drop_last ed.cardinality
      (args.eval_batch_size : Int) =
      if args.dataloader_drop_last
        then Int.floor ((n : ℚ) / (args.eval_batch_size : ℚ))
        else Int.ceil ((n : ℚ) / (args.eval_batch_size : ℚ)) := by
    rw [hn]
    exact approx_steps_eq_floor_ceil args.dataloader_drop_last n args.eval_batch_size hb
  have h0 : 0 ≤ ed.cardinality := Int.not_lt.mp hcard
  have hok := build_eval_pipeline_ok args ed h0
  refine ⟨?_, ?_, ?_⟩
  · exact ⟨_, hok, hn, hsteps⟩
  · exact ⟨_, hok, hn, hsteps⟩
  · have : ¬ args.max_steps > 0 := Int.not_lt.mpr hms
    rw [steps_per_epoch, if_neg this]
    exact approx_steps_eq_floor_ceil args.dataloader_drop_last ntr tbs htbs

/-- Witness for C9 at concrete inputs. -/
theorem step_counts_floor_ceil_witness :
    ((Dataset.mk 7).cardinality = ((7 : Nat) : Int) ∧ 0 < argsW.eval_batch_size ∧
      0 < (2 : Nat) ∧ argsW.max_steps ≤ 0) ∧
    ((∃ r, get_eval_tfdataset argsW none (some (Dataset.mk 7)) = .ok r ∧
      r.num_examples = ((7 : Nat) : Int) ∧
      r.steps = if argsW.dataloader_drop_last
        then Int.floor (((7 : Nat) : ℚ) / (argsW.eval_batch_size : ℚ))
        else Int.ceil (((7 : Nat) : ℚ) / (argsW.eval_batch_size : ℚ))) ∧
    (∃ r, get_test_tfdataset argsW (Dataset.mk 7) = .ok r ∧
      r.num_examples = ((7 : Nat) : Int) ∧
      r.steps = if argsW.dataloader_drop_last
        then Int.floor (((7 : Nat) : ℚ) / (argsW.eval_batch_size : ℚ))
        else Int.ceil (((7 : Nat) : ℚ) / (argsW.eval_batch_size : ℚ))) ∧
    steps_per_epoch argsW ((9 : Nat) : Int) ((2 : Nat) : Int) =
      (if argsW.dataloader_drop_last
        then Int.floor (((9 : Nat) : ℚ) / ((2 : Nat) : ℚ))
        else Int.ceil (((9 : Nat) : ℚ) / ((2 : Nat) : ℚ)))) :=
  ⟨⟨rfl, by decide, by decide, by decide⟩,
    step_counts_floor_ceil argsW (Dataset.mk 7) 7 rfl (by decide) 9 2 (by decide)
      (by decide)⟩

/-- A trainable variable of the model, identified abstractly; its values and
shape live in the framework.  A gradient tensor is stood in for by one
integer per variable. -/
structure Variable where
  id : Nat
deriving Repr, DecidableEq

/-- tf.zeros_like(v): the zero tensor of v's shape, stood in for by 0. -/
def zeros_like (_v : Variable) : Int := 0

/-- The None-substitution of training_step (trainer_tf.py lines 496-498):
tf.gradients returns one optional gradient per trainable variable; a None
gradient is replaced by tf.zeros_like of its variable. -/
def substitute_none (raw : List (Option Int)) (vars : List Variable) : List Int :=
  (raw.zip vars).map (fun gv =>
    match gv.1 with
    | some g => g
    | none => zeros_like gv.2)

/-- Modelled from the spec: GradientAccumulator (imported from
optimization_tf, which is outside the examined source) — per the spec,
gradient accumulation is implemented by the underlying framework.  Calling
the accumulator adds the passed gradients elementwise into its state; an
empty state stands for a freshly-reset accumulator. -/
def accum_add (acc gradients : List Int) : List Int :=
  if acc.isEmpty then gradients else acc.zipWith (· + ·) gradients

/-- The trainer state read and written by training_step / apply_gradients:
the gradient accumulator's slots and the running training-loss sum. -/
structure GradState where
  gradient_accumulator : List Int
  train_loss : Int
deriving Repr, DecidableEq

/-- State and return value of one training_step call. -/
structure StepResult where
  state : GradState
  ret : Option (List Int)
deriving Repr, DecidableEq

/-- TFTrainer.training_step (trainer_tf.py lines 492-506).  raw is the
output of tf.gradients on the scaled loss (one optional gradient per
trainable variable) and loss is the per-example loss sum added into
self.train_loss; both are computed by the framework and passed in. -/
def training_step (args : TrainingArgs) (st : GradState)
    (raw : List (Option Int)) (vars : List Variable) (loss : Int) : StepResult :=
  let gradients := substitute_none raw vars
  let st1 := if args.gradient_accumulation_steps > 1
    then { st with gradient_accumulator := accum_add st.gradient_accumulator gradients }
    else st
  let st2 := { st1 with train_loss := st1.train_loss + loss }
  { state := st2
    ret := if args.gradient_accumulation_steps = 1 then some gradients else none }

/-- tf.clip_by_value: clamp x into the interval [lo, hi]. -/
def clip_by_value (x lo hi : Int) : Int := min (max x lo) hi

/-- Result of one apply_gradients call: the final state, the argument of
each optimizer.apply_gradients call made, and how many times training_step
ran. -/
structure ApplyResult where
  state : GradState
  opt_apply_calls : List (List (Int × Variable))
  training_step_calls : Nat
deriving Repr, DecidableEq

/-- The state after running training_step on each of the first k sub-batches
(the accumulation loop of apply_gradients, trainer_tf.py lines 514-522; the
slicing and rotation of the features tensor is framework bookkeeping,
abstracted into the per-sub-step raw gradients and losses). -/
def accumulate_steps (args : TrainingArgs) (st : GradState)
    (raw : Nat → List (Option Int)) (loss : Nat → Int) (vars : List Variable)
    (k : Nat) : GradState :=
  (List.range k).foldl (fun s i => (training_step args s (raw i) vars (loss i)).state) st

/-- TFTrainer.apply_gradients (trainer_tf.py lines 508-530). -/
def apply_gradients (args : TrainingArgs) (st : GradState)
    (raw : Nat → List (Option Int)) (loss : Nat → Int) (vars : List Variable) :
    ApplyResult :=
  if args.gradient_accumulation_steps = 1 then
    let r := training_step args st (raw 0) vars (loss 0)
    let gradients := r.ret.getD []
    { state := r.state
      opt_apply_calls := [gradients.zip vars]
      training_step_calls := 1 }
  else
    let stN := accumulate_steps args st raw loss vars args.gradient_accumulation_steps
    let gradients := stN.gradient_accumulator
    let clipped := gradients.map
      (fun g => clip_by_value g (-args.max_grad_norm) args.max_grad_norm)
    { state := { stN with gradient_accumulator := [] }
      opt_apply_calls := [clipped.zip vars]
      training_step_calls := args.gradient_accumulation_steps }

/-- Projected to the accumulator, the accumulation loop is an iterated
accum_add of the per-sub-step substituted gradients. -/
theorem accumulate_steps_accumulator (args : TrainingArgs) (st : GradState)
    (raw : Nat → List (Option Int)) (loss : Nat → Int) (vars : List Variable)
    (h : 1 < args.gradient_accumulation_steps) (k : Nat) :
    (accumulate_steps args st raw loss vars k).gradient_accumulator =
      (List.range k).foldl (fun a i => accum_add a (substitute_none (raw i) vars))
        st.gradient_accumulator := by
  induction k with
  | zero => rfl
  | succ k ih =>
      have hts : ∀ s : GradState,
          (training_step args s (raw k) vars (loss k)).state.gradient_accumulator =
            accum_add s.gradient_accumulator (substitute_none (raw k) vars) := by
        intro s
        simp [training_step, h]
      rw [accumulate_steps, List.range_succ, List.foldl_append, List.foldl_cons,
        List.foldl_nil, hts, ← accumulate_steps, ih, List.foldl_append,
        List.foldl_cons, List.foldl_nil]

/-- C1: when gradient_accumulation_steps = 1, training_step returns the
batch gradients, leaves the accumulator untouched, and apply_gradients
passes exactly those gradients zipped with model.trainable_variables to
optimizer.apply_gradients; when gradient_accumulation_steps > 1,
training_step adds its gradients into the accumulator and returns nothing,
and apply_gradients runs training_step gradient_accumulation_steps times,
clips each accumulated gradient elementwise to
[-max_grad_norm, max_grad_norm], applies the clipped gradients with
optimizer.apply_gradients, and then resets the accumulator. -/
theorem apply_gradients_spec (args : TrainingArgs) (st : GradState)
    (raw : Nat → List (Option Int)) (loss : Nat → Int) (vars : List Variable) :
    (args.gradient_accumulation_steps = 1 →
      (training_step args st (raw 0) vars (loss 0)).ret =
        some (substitute_none (raw 0) vars) ∧
      (training_step args st (raw 0) vars (loss 0)).state.gradient_accumulator =
        st.gradient_accumulator ∧
      apply_gradients args st raw loss vars =
        { state := (training_step args st (raw 0) vars (loss 0)).state
          opt_apply_calls := [(substitute_none (raw 0) vars).zip vars]
          training_step_calls := 1 }) ∧
    (1 < args.gradient_accumulation_steps →
      (∀ s r l, (training_step args s r vars l).ret = none ∧
        (training_step args s r vars l).state.gradient_accumulator =
          accum_add s.gradient_accumulator (substitute_none r vars)) ∧
      (apply_gradients args st raw loss vars).training_step_calls =
        args.gradient_accumulation_steps ∧
      (apply_gradients args st raw loss vars).opt_apply_calls =
        [((accumulate_steps args st raw loss vars
            args.gradient_accumulation_steps).gradient_accumulator.map
          (fun g => clip_by_value g (-args.max_grad_norm) args.max_grad_norm)).zip vars] ∧
      (apply_gradients args st raw loss vars).state.gradient_accumulator = [] ∧
      (accumulate_steps args st raw loss vars
          args.gradient_accumulation_steps).gradient_accumulator =
        (List.range args.gradient_accumulation_steps).foldl
          (fun a i => accum_add a (substitute_none (raw i) vars))
          st.gradient_accumulator) := by
  constructor
  · intro h1
    refine ⟨?_, ?_, ?_⟩
    · simp [training_step, h1]
    · simp [training_step, h1]
    · simp [apply_gradients, h1, training_step]
  · intro h
    have h1 : args.gradient_accumulation_steps ≠ 1 := by omega
    refine ⟨?_, ?_, ?_, ?_, ?_⟩
    · intro s r l
      constructor
      · simp [training_step, h1]
      · simp [training_step, h]
    · simp [apply_gradients, h1]
    · simp [apply_gradients, h1]
    · simp [apply_gradients, h1]
    · exact accumulate_steps_accumulator args st raw loss vars h _

/-- Sample inputs for the gradient-orchestration witnesses. -/
def argsGA2 : TrainingArgs := { argsW with gradient_accumulation_steps := 2 }

def varsW : List Variable := [⟨0⟩, ⟨1⟩]

def rawW : Nat → List (Option Int) := fun i => [some ((i : Int) + 1), none]

def lossW : Nat → Int := fun _ => 3

def stW : GradState := { gradient_accumulator := [], train_loss := 0 }

/-- Witness for C1 at concrete inputs (accumulation factor 2). -/
theorem apply_gradients_spec_witness :
    (argsGA2.gradient_accumulation_steps = 1 →
      (training_step argsGA2 stW (rawW 0) varsW (lossW 0)).ret =
        some (substitute_none (rawW 0) varsW) ∧
      (training_step argsGA2 stW (rawW 0) varsW (lossW 0)).state.gradient_accumulator =
        stW.gradient_accumulator ∧
      apply_gradients argsGA2 stW rawW lossW varsW =
        { state := (training_step argsGA2 stW (rawW 0) varsW (lossW 0)).state
          opt_apply_calls := [(substitute_none (rawW 0) varsW).zip varsW]
          training_step_calls := 1 }) ∧
    (1 < argsGA2.gradient_accumulation_steps →
      (∀ s r l, (training_step argsGA2 s r varsW l).ret = none ∧
        (training_step argsGA2 s r varsW l).state.gradient_accumulator =
          accum_add s.gradient_accumulator (substitute_none r varsW)) ∧
      (apply_gradients argsGA2 stW rawW lossW varsW).training_step_calls =
        argsGA2.gradient_accumulation_steps ∧
      (apply_gradients argsGA2 stW rawW lossW varsW).opt_apply_calls =
        [((accumulate_steps argsGA2 stW rawW lossW varsW
            argsGA2.gradient_accumulation_steps).gradient_accumulator.map
          (fun g => clip_by_value g (-argsGA2.max_grad_norm) argsGA2.max_grad_norm)).zip
            varsW] ∧
      (apply_gradients argsGA2 stW rawW lossW varsW).state.gradient_accumulator = [] ∧
      (accumulate_steps argsGA2 stW rawW lossW varsW
          argsGA2.gradient_accumulation_steps).gradient_accumulator =
        (List.range argsGA2.gradient_accumulation_steps).foldl
          (fun a i => accum_add a (substitute_none (rawW i) varsW))
          stW.gradient_accumulator) :=
  apply_gradients_spec argsGA2 stW rawW lossW varsW

/-- C10: the gradient list computed in training_step has the same length as
model.trainable_variables and carries a well-defined (non-None) gradient at
every index: where tf.gradients produced None, the zero tensor of that
variable's shape stands in.  The hypothesis is tf.gradients' contract of
returning one entry per listed variable. -/
theorem training_step_gradients_total (raw : List (Option Int)) (vars : List Variable)
    (h : raw.length = vars.length) :
    (substitute_none raw vars).length = vars.length ∧
    ∀ (i : Nat) (g : Option Int) (v : Variable), raw[i]? = some g → vars[i]? = some v →
      (substitute_none raw vars)[i]? = some (g.getD (zeros_like v)) := by
  constructor
  · simp [substitute_none, List.length_zip, h]
  · intro i g v hg hv
    have hz : (raw.zip vars)[i]? = some (g, v) := by
      rw [List.getElem?_zip_eq_some]
      exact ⟨hg, hv⟩
    simp only [substitute_none, List.getElem?_map, hz, Option.map_some']
    cases g <;> rfl

/-- Witness for C10 at concrete inputs. -/
theorem training_step_gradients_total_witness :
    (rawW 0).length = varsW.length ∧
    ((substitute_none (rawW 0) varsW).length = varsW.length ∧
    ∀ (i : Nat) (g : Option Int) (v : Variable),
      (rawW 0)[i]? = some g → varsW[i]? = some v →
      (substitute_none (rawW 0) varsW)[i]? = some (g.getD (zeros_like v))) :=
  ⟨by decide, training_step_gradients_total (rawW 0) varsW (by decide)⟩

/-- Python's str.startswith, over the underlying character list. -/
def startswith (s p : String) : Bool := p.data.isPrefixOf s.data

/-- A Python dict with string keys and real (here: rational) values,
modelled as an insertion-ordered association list. -/
abbrev Metrics := List (String × Rat)

/-- The dict's keys, in insertion order. -/
def keys (m : Metrics) : List String := m.map Prod.fst

/-- d[k] as a read: the first binding of k, if any. -/
def dict_lookup (m : Metrics) (k : String) : Option Rat :=
  match m with
  | [] => none
  | (k2, v) :: rest => if k2 = k then some v else dict_lookup rest k

/-- d.pop(k): drop the binding of k. -/
def dict_remove (m : Metrics) (k : String) : Metrics :=
  match m with
  | [] => []
  | kv :: rest => if kv.1 = k then dict_remove rest k else kv :: dict_remove rest k

/-- d[k] = v as a write: overwrite in place when k is bound, else append. -/
def dict_set (m : Metrics) (k : String) (v : Rat) : Metrics :=
  match m with
  | [] => [(k, v)]
  | kv :: rest => if kv.1 = k then (k, v) :: rest else kv :: dict_set rest k v

/-- One iteration of the key-renaming loop of _prediction_loop
(trainer_tf.py lines 296-298): a key that does not start with "eval_" is
popped and re-inserted under "eval_" + key. -/
def rename_step (m : Metrics) (key : String) : Metrics :=
  if startswith key "eval_" then m
  else
    match dict_lookup m key with
    | none => m
    | some v => dict_set (dict_remove m key) ("eval_" ++ key) v

/-- The full renaming loop, iterating over a snapshot of the keys
(for key in list(metrics.keys())). -/
def rename_all (ks : List String) (m : Metrics) : Metrics :=
  ks.foldl rename_step m

/-- The metrics dictionary as built at the end of _prediction_loop
(trainer_tf.py lines 289-298): the compute_metrics result, then
metrics["eval_loss"] is assigned the loss, then every key not starting with
"eval_" is renamed to "eval_" + key. -/
def finalize_metrics (computed : Metrics) (eval_loss_value : Rat) : Metrics :=
  rename_all (keys (dict_set computed "eval_loss" eval_loss_value))
    (dict_set computed "eval_loss" eval_loss_value)

theorem startswith_append (p k : String) : startswith (p ++ k) p = true := by
  simp only [startswith, String.data_append]
  exact List.isPrefixOf_iff_prefix.mpr (List.prefix_append _ _)

theorem string_append_left_cancel {p a b : String} (h : p ++ a = p ++ b) : a = b := by
  have hd := congrArg String.data h
  rw [String.data_append, String.data_append] at hd
  have := List.append_cancel_left hd
  cases a
  cases b
  exact congrArg String.mk this

theorem mem_keys_dict_set {m : Metrics} {k : String} {v : Rat} {j : String}
    (hj : j ∈ keys (dict_set m k v)) : j = k ∨ j ∈ keys m := by
  induction m with
  | nil =>
      left
      simpa [dict_set, keys] using hj
  | cons a m ih =>
      by_cases ha : a.1 = k
      · rw [dict_set, if_pos ha] at hj
        simp only [keys, List.map_cons, List.mem_cons] at hj ⊢
        rcases hj with h | h
        · exact Or.inl h
        · exact Or.inr (Or.inr h)
      · rw [dict_set, if_neg ha] at hj
        simp only [keys, List.map_cons, List.mem_cons] at hj ⊢
        rcases hj with h | h
        · exact Or.inr (Or.inl h)
        · rcases ih h with h2 | h2
          · exact Or.inl h2
          · exact Or.inr (Or.inr h2)

theorem mem_keys_dict_set_of_mem {m : Metrics} {j : String} (k : String) (v : Rat)
    (hj : j ∈ keys m) : j ∈ keys (dict_set m k v) := by
  induction m with
  | nil => cases hj
  | cons a m ih =>
      simp only [keys, List.map_cons, List.mem_cons] at hj
      by_cases ha : a.1 = k
      · rw [dict_set, if_pos ha]
        simp only [keys, List.map_cons, List.mem_cons]
        rcases hj with h | h
        · exact Or.inl (h.trans ha)
        · exact Or.inr h
      · rw [dict_set, if_neg ha]
        simp only [keys, List.map_cons, List.mem_cons]
        rcases hj with h | h
        · exact Or.inl h
        · exact Or.inr (ih h)

theorem mem_keys_dict_set_self (m : Metrics) (k : String) (v : Rat) :
    k ∈ keys (dict_set m k v) := by
  induction m with
  | nil => simp [dict_set, keys]
  | cons a m ih =>
      by_cases ha : a.1 = k
      · rw [dict_set, if_pos ha]
        simp [keys]
      · rw [dict_set, if_neg ha]
        simp only [keys, List.map_cons, List.mem_cons]
        exact Or.inr ih

theorem mem_keys_dict_remove {m : Metrics} {k j : String} :
    j ∈ keys (dict_remove m k) ↔ j ∈ keys m ∧ j ≠ k := by
  induction m with
  | nil => simp [dict_remove, keys]
  | cons a m ih =>
      by_cases ha : a.1 = k
      · rw [dict_remove, if_pos ha, ih]
        simp only [keys, List.map_cons, List.mem_cons]
        constructor
        · intro ⟨h1, h2⟩
          exact ⟨Or.inr h1, h2⟩
        · intro ⟨h1, h2⟩
          rcases h1 with h1 | h1
          · exact absurd (h1.trans ha) h2
          · exact ⟨h1, h2⟩
      · rw [dict_remove, if_neg ha]
        simp only [keys, List.map_cons, List.mem_cons]
        rw [show (dict_remove m k).map Prod.fst = keys (dict_remove m k) from rfl, ih]
        constructor
        · rintro (h | ⟨h1, h2⟩)
          · subst h
            exact ⟨Or.inl rfl, ha⟩
          · exact ⟨Or.inr h1, h2⟩
        · rintro ⟨h1 | h1, h2⟩
          · exact Or.inl h1
          · exact Or.inr ⟨h1, h2⟩

theorem dict_lookup_eq_none_of_not_mem {m : Metrics} {k : String}
    (h : k ∉ keys m) : dict_lookup m k = none := by
  induction m with
  | nil => rfl
  | cons a m ih =>
      simp only [keys, List.map_cons, List.mem_cons, not_or] at h
      rw [dict_lookup, if_neg (fun he => h.1 he.symm)]
      exact ih (by simpa [keys] using h.2)

theorem mem_of_dict_lookup_some {m : Metrics} {k : String} {v : Rat}
    (h : dict_lookup m k = some v) : k ∈ keys m := by
  by_contra hk
  rw [dict_lookup_eq_none_of_not_mem hk] at h
  cases h

theorem dict_lookup_set_self (m : Metrics) (k : String) (v : Rat) :
    dict_lookup (dict_set m k v) k = some v := by
  induction m with
  | nil => simp [dict_set, dict_lookup]
  | cons a m ih =>
      by_cases ha : a.1 = k
      · rw [dict_set, if_pos ha, dict_lookup, if_pos rfl]
      · rw [dict_set, if_neg ha, dict_lookup, if_neg ha]
        exact ih

theorem dict_lookup_set_other {m : Metrics} {k j : String} (v : Rat) (h : j ≠ k) :
    dict_lookup (dict_set m k v) j = dict_lookup m j := by
  induction m with
  | nil =>
      rw [dict_set, dict_lookup, dict_lookup, if_neg (fun he => h he.symm)]
      rfl
  | cons a m ih =>
      by_cases ha : a.1 = k
      · rw [dict_set, if_pos ha, dict_lookup, dict_lookup,
          if_neg (fun he => h he.symm), if_neg (by rw [ha]; exact fun he => h he.symm)]
      · rw [dict_set, if_neg ha, dict_lookup, dict_lookup]
        by_cases hj : a.1 = j
        · rw [if_pos hj, if_pos hj]
        · rw [if_neg hj, if_neg hj]
          exact ih

theorem dict_lookup_remove_other {m : Metrics} {k j : String} (h : j ≠ k) :
    dict_lookup (dict_remove m k) j = dict_lookup m j := by
  induction m with
  | nil => rfl
  | cons a m ih =>
      by_cases ha : a.1 = k
      · rw [dict_remove, if_pos ha, dict_lookup,
          if_neg (by rw [ha]; exact fun he => h he.symm)]
        exact ih
      · rw [dict_remove, if_neg ha, dict_lookup, dict_lookup]
        by_cases hj : a.1 = j
        · rw [if_pos hj, if_pos hj]
        · rw [if_neg hj, if_neg hj]
          exact ih

theorem dict_lookup_isSome_of_mem {m : Metrics} {k : String} (h : k ∈ keys m) :
    ∃ v, dict_lookup m k = some v := by
  induction m with
  | nil => cases h
  | cons a m ih =>
      by_cases ha : a.1 = k
      · exact ⟨a.2, by rw [dict_lookup, if_pos ha]⟩
      · have h2 : k ∈ keys m := by
          simp only [keys, List.map_cons, List.mem_cons] at h
          exact Or.resolve_left h (fun he => ha he.symm)
        obtain ⟨v, hv⟩ := ih h2
        exact ⟨v, by rw [dict_lookup, if_neg ha]; exact hv⟩

theorem rename_step_preserves_eval_mem {m : Metrics} {j : String} (key : String)
    (hj : startswith j "eval_" = true) (hm : j ∈ keys m) :
    j ∈ keys (rename_step m key) := by
  unfold rename_step
  by_cases hk : startswith key "eval_"
  · rw [if_pos hk]
    exact hm
  · rw [if_neg hk]
    cases hl : dict_lookup m key with
    | none => exact hm
    | some v =>
        apply mem_keys_dict_set_of_mem
        rw [mem_keys_dict_remove]
        exact ⟨hm, fun he => hk (he ▸ hj)⟩

theorem rename_all_preserves_eval_mem (ks : List String) {m : Metrics} {j : String}
    (hj : startswith j "eval_" = true) (hm : j ∈ keys m) :
    j ∈ keys (rename_all ks m) := by
  induction ks generalizing m with
  | nil => exact hm
  | cons k ks ih => exact ih (rename_step_preserves_eval_mem k hj hm)

/-- After the renaming loop has run over a key list covering every key of m
that does not start with "eval_", all remaining keys start with "eval_". -/
theorem rename_all_keys_eval (ks : List String) (m : Metrics)
    (hm : ∀ j ∈ keys m, startswith j "eval_" = true ∨ j ∈ ks) :
    ∀ j ∈ keys (rename_all ks m), startswith j "eval_" = true := by
  induction ks generalizing m with
  | nil =>
      intro j hj
      rcases hm j hj with h | h
      · exact h
      · cases h
  | cons k ks ih =>
      intro j hj
      refine ih (rename_step m k) ?_ j hj
      intro i hi
      unfold rename_step at hi
      by_cases hk : startswith k "eval_"
      · rw [if_pos hk] at hi
        rcases hm i hi with h | h
        · exact Or.inl h
        · rcases List.mem_cons.mp h with rfl | h2
          · exact Or.inl hk
          · exact Or.inr h2
      · rw [if_neg hk] at hi
        cases hl : dict_lookup m k with
        | none =>
            rw [hl] at hi
            rcases hm i hi with h | h
            · exact Or.inl h
            · rcases List.mem_cons.mp h with rfl | h2
              · obtain ⟨v, hv⟩ := dict_lookup_isSome_of_mem hi
                rw [hl] at hv
                cases hv
              · exact Or.inr h2
        | some v =>
            rw [hl] at hi
            rcases mem_keys_dict_set hi with rfl | h2
            · exact Or.inl (startswith_append "eval_" k)
            · have h3 := mem_keys_dict_remove.mp h2
              rcases hm i h3.1 with h | h
              · exact Or.inl h
              · rcases List.mem_cons.mp h with rfl | h4
                · exact absurd rfl h3.2
                · exact Or.inr h4

/-- A key j of m that does not start with "eval_" and is in the processed
key list ends up re-inserted as "eval_" + j. -/
theorem rename_all_inserts_eval (ks : List String) (m : Metrics) (j : String)
    (hj : startswith j "eval_" = false) (hjk : j ∈ ks) (hjm : j ∈ keys m) :
    ("eval_" ++ j) ∈ keys (rename_all ks m) := by
  induction ks generalizing m with
  | nil => cases hjk
  | cons k ks ih =>
      by_cases hjeq : j = k
      · subst hjeq
        obtain ⟨v, hv⟩ := dict_lookup_isSome_of_mem hjm
        have hstep : rename_step m j = dict_set (dict_remove m j) ("eval_" ++ j) v := by
          unfold rename_step
          rw [if_neg (by simp [hj]), hv]
        show ("eval_" ++ j) ∈ keys (rename_all ks (rename_step m j))
        apply rename_all_preserves_eval_mem ks (startswith_append "eval_" j)
        rw [hstep]
        exact mem_keys_dict_set_self _ _ _
      · have hjm2 : j ∈ keys (rename_step m k) := by
          unfold rename_step
          by_cases hk : startswith k "eval_"
          · rw [if_pos hk]
            exact hjm
          · rw [if_neg hk]
            cases hl : dict_lookup m k with
            | none => exact hjm
            | some v =>
                apply mem_keys_dict_set_of_mem
                rw [mem_keys_dict_remove]
                exact ⟨hjm, hjeq⟩
        have hjk2 : j ∈ ks := (List.mem_cons.mp hjk).resolve_left hjeq
        exact ih hjk2 (m := rename_step m k) hjm2

theorem rename_step_preserves_lookup {m : Metrics} {j : String} (key : String)
    (hj : startswith j "eval_" = true) (hne : ("eval_" ++ key) ≠ j) :
    dict_lookup (rename_step m key) j = dict_lookup m j := by
  unfold rename_step
  by_cases hk : startswith key "eval_"
  · rw [if_pos hk]
  · rw [if_neg hk]
    cases hl : dict_lookup m key with
    | none => rfl
    | some v =>
        rw [dict_lookup_set_other v (fun he => hne he.symm),
          dict_lookup_remove_other (fun he => hk (by rw [← he]; exact hj))]

theorem rename_all_preserves_lookup (ks : List String) (m : Metrics) (j : String)
    (hj : startswith j "eval_" = true)
    (hks : ∀ k ∈ ks, ("eval_" ++ k) ≠ j) :
    dict_lookup (rename_all ks m) j = dict_lookup m j := by
  induction ks generalizing m with
  | nil => rfl
  | cons k ks ih =>
      show dict_lookup (rename_all ks (rename_step m k)) j = _
      rw [ih _ (fun i hi => hks i (List.mem_cons_of_mem k hi)),
        rename_step_preserves_lookup k hj (hks k (List.mem_cons_self k ks))]

/-- C8: every key of the metrics dictionary produced by _prediction_loop
(and hence of the dictionary returned by evaluate) starts with "eval_": the
loss is stored under "eval_loss", and any compute_metrics key not already
starting with "eval_" is removed and re-inserted under "eval_" + key.  The
last conjunct states the resulting "eval_loss" binding, under the proviso
that compute_metrics produced no key "loss" (which the renaming would move
onto "eval_loss"). -/
theorem finalize_metrics_keys_eval (computed : Metrics) (L : Rat) :
    (∀ j ∈ keys (finalize_metrics computed L), startswith j "eval_" = true) ∧
    (∀ j ∈ keys (dict_set computed "eval_loss" L), startswith j "eval_" = false →
      j ∉ keys (finalize_metrics computed L) ∧
      ("eval_" ++ j) ∈ keys (finalize_metrics computed L)) ∧
    ("loss" ∉ keys computed →
      dict_lookup (finalize_metrics computed L) "eval_loss" = some L) := by
  refine ⟨?_, ?_, ?_⟩
  · exact rename_all_keys_eval _ _ (fun j hj => Or.inr hj)
  · intro j hj hjf
    constructor
    · intro hmem
      have := rename_all_keys_eval (keys (dict_set computed "eval_loss" L)) _
        (fun i hi => Or.inr hi) j hmem
      rw [hjf] at this
      cases this
    · exact rename_all_inserts_eval _ _ j hjf hj hj
  · intro hnl
    unfold finalize_metrics
    rw [rename_all_preserves_lookup _ _ _ (by decide) ?_, dict_lookup_set_self]
    intro k hk hek
    have hek2 : ("eval_" : String) ++ k = "eval_" ++ "loss" := hek
    have hkl : k = "loss" := string_append_left_cancel hek2
    subst hkl
    rcases mem_keys_dict_set hk with he | he
    · exact absurd he (by decide)
    · exact hnl he

/-- Witness for C8 at concrete inputs. -/
theorem finalize_metrics_keys_eval_witness :
    (∀ j ∈ keys (finalize_metrics [("acc", 1), ("eval_f1", 2)] 3),
      startswith j "eval_" = true) ∧
    (∀ j ∈ keys (dict_set [("acc", 1), ("eval_f1", 2)] "eval_loss" 3),
      startswith j "eval_" = false →
      j ∉ keys (finalize_metrics [("acc", 1), ("eval_f1", 2)] 3) ∧
      ("eval_" ++ j) ∈ keys (finalize_metrics [("acc", 1), ("eval_f1", 2)] 3)) ∧
    ("loss" ∉ keys [("acc", 1), ("eval_f1", 2)] →
      dict_lookup (finalize_metrics [("acc", 1), ("eval_f1", 2)] 3) "eval_loss" =
        some 3) :=
  finalize_metrics_keys_eval [("acc", 1), ("eval_f1", 2)] 3

/-- A single observable action of the inner step loop of train(): a _log
call with its record, an evaluate() call, or a checkpoint save at a step. -/
inductive TrainEvent where
  | logCall (record : Metrics)
  | evalCall
  | saveCheckpoint (step : Nat)
deriving Repr, DecidableEq

/-- The loop-invariant context of train(): the arguments, steps_per_epoch
and total_train_batch_size as computed before the loop, and the
learning-rate schedule (a framework object, abstracted as a function of the
global step). -/
structure LoopCtx where
  args : TrainingArgs
  steps_per_epoch : Nat
  total_train_batch_size : Nat
  lr_scheduler : Nat → Rat

/-- The observable outcome of one iteration of the inner step loop. -/
structure StepOutcome where
  events : List TrainEvent
  broke : Bool
  epoch_logging : Rat
  training_loss : Rat
deriving Repr, DecidableEq

/-- One iteration of the inner step loop of train() (trainer_tf.py lines
436-480), after the framework delivered the batch.  global_step is
iterations.numpy() as read at the top of the body (line 437), and
train_loss_result is self.train_loss.result() after this iteration's
distributed_training_steps call.  evaluate() (line 462) is recorded as an
evalCall event; its internal _log record carries only "eval_"-prefixed
metric keys plus "epoch" (see finalize_metrics_keys_eval) so it is not a
training log record.  _log itself re-assigns the already-present "epoch"
entry (line 307); the records below show the final key set.  The debug-only
profiler trace export (lines 451-455) writes to the summary writer, not
through _log, the evaluator or the checkpoint manager, and is omitted. -/
def train_step_body (ctx : LoopCtx) (epoch_iter step global_step : Nat)
    (train_loss_result : Rat) : StepOutcome :=
  let epoch_logging : Rat :=
    (epoch_iter : Rat) - 1 + ((step : Rat) + 1) / (ctx.steps_per_epoch : Rat)
  let training_loss : Rat :=
    train_loss_result / (((step : Rat) + 1) * (ctx.total_train_batch_size : Rat))
  let debug_events : List TrainEvent :=
    if ctx.args.debug
    then [.logCall [("loss", training_loss), ("epoch", epoch_logging)]]
    else []
  let eval_events : List TrainEvent :=
    if 0 < global_step ∧ ctx.args.evaluate_during_training ∧
        global_step % ctx.args.eval_steps = 0
    then [.evalCall]
    else []
  let log_events : List TrainEvent :=
    if (0 < global_step ∧ global_step % ctx.args.logging_steps = 0) ∨
        (global_step = 1 ∧ ctx.args.logging_first_step)
    then [.logCall [("loss", training_loss),
                    ("learning_rate", ctx.lr_scheduler global_step),
                    ("epoch", epoch_logging)]]
    else []
  let save_events : List TrainEvent :=
    if 0 < global_step ∧ global_step % ctx.args.save_steps = 0
    then [.saveCheckpoint global_step]
    else []
  { events := debug_events ++ eval_events ++ log_events ++ save_events
    broke := decide (0 < global_step ∧ global_step % ctx.steps_per_epoch = 0)
    epoch_logging := epoch_logging
    training_loss := training_loss }

theorem mem_ite_singleton {α : Type} (a x : α) (c : Prop) [Decidable c] :
    (a ∈ (if c then [x] else [])) ↔ c ∧ a = x := by
  split_ifs with h <;> simp [h]

/-- C4: in the inner step loop of train(), evaluate() is invoked exactly
when args.evaluate_during_training holds, global_step > 0, and global_step
is a multiple of args.eval_steps. -/
theorem evaluate_periodicity (ctx : LoopCtx) (epoch_iter step global_step : Nat)
    (tl : Rat) (_hes : 0 < ctx.args.eval_steps) :
    TrainEvent.evalCall ∈ (train_step_body ctx epoch_iter step global_step tl).events ↔
      (ctx.args.evaluate_during_training = true ∧ 0 < global_step ∧
        global_step % ctx.args.eval_steps = 0) := by
  simp only [train_step_body, List.mem_append, mem_ite_singleton]
  simp only [reduceCtorEq, and_false, false_or, or_false]
  simp only [and_true]
  tauto

/-- Witness for C4 at concrete inputs. -/
def ctxW : LoopCtx where
  args := argsW
  steps_per_epoch := 5
  total_train_batch_size := 2
  lr_scheduler := fun _ => (1 : Rat) / 100

theorem evaluate_periodicity_witness :
    0 < ctxW.args.eval_steps ∧
    (TrainEvent.evalCall ∈ (train_step_body ctxW 1 3 4 7).events ↔
      (ctxW.args.evaluate_during_training = true ∧ 0 < 4 ∧
        4 % ctxW.args.eval_steps = 0)) :=
  ⟨by decide, evaluate_periodicity ctxW 1 3 4 7 (by decide)⟩

/-- C5: in the inner step loop of train(), a checkpoint is saved via the
checkpoint manager exactly when global_step > 0 and global_step is a
multiple of args.save_steps. -/
theorem checkpoint_periodicity (ctx : LoopCtx) (epoch_iter step global_step : Nat)
    (tl : Rat) (_hss : 0 < ctx.args.save_steps) :
    ∀ s, TrainEvent.saveCheckpoint s ∈
        (train_step_body ctx epoch_iter step global_step tl).events ↔
      (s = global_step ∧ 0 < global_step ∧
        global_step % ctx.args.save_steps = 0) := by
  intro s
  simp only [train_step_body, List.mem_append, mem_ite_singleton]
  simp only [reduceCtorEq, and_false, false_or, or_false,
    TrainEvent.saveCheckpoint.injEq]
  tauto

/-- Witness for C5 at concrete inputs. -/
theorem checkpoint_periodicity_witness :
    0 < ctxW.args.save_steps ∧
    (∀ s, TrainEvent.saveCheckpoint s ∈ (train_step_body ctxW 1 5 6 7).events ↔
      (s = 6 ∧ 0 < 6 ∧ 6 % ctxW.args.save_steps = 0)) :=
  ⟨by decide, checkpoint_periodicity ctxW 1 5 6 7 (by decide)⟩

/-- C6: in the inner step loop of train(), a training log record containing
the keys "loss", "learning_rate" and "epoch" is emitted via _log exactly
when (global_step > 0 and global_step is a multiple of args.logging_steps)
or (global_step = 1 and args.logging_first_step); its loss entry is the
running training-loss sum divided by (step+1) * total_train_batch_size and
its learning_rate entry is the scheduler at global_step. -/
theorem training_log_periodicity (ctx : LoopCtx) (epoch_iter step global_step : Nat)
    (tl : Rat) (_hls : 0 < ctx.args.logging_steps) :
    ((∃ r, TrainEvent.logCall r ∈
        (train_step_body ctx epoch_iter step global_step tl).events ∧
        "loss" ∈ keys r ∧ "learning_rate" ∈ keys r ∧ "epoch" ∈ keys r) ↔
      ((0 < global_step ∧ global_step % ctx.args.logging_steps = 0) ∨
        (global_step = 1 ∧ ctx.args.logging_first_step = true))) ∧
    (((0 < global_step ∧ global_step % ctx.args.logging_steps = 0) ∨
        (global_step = 1 ∧ ctx.args.logging_first_step = true)) →
      TrainEvent.logCall
          [("loss", tl / (((step : Rat) + 1) * (ctx.total_train_batch_size : Rat))),
           ("learning_rate", ctx.lr_scheduler global_step),
           ("epoch", (train_step_body ctx epoch_iter step global_step tl).epoch_logging)]
        ∈ (train_step_body ctx epoch_iter step global_step tl).events) := by
  constructor
  · constructor
    · rintro ⟨r, hr, _hl, hlr, _he⟩
      simp only [train_step_body, List.mem_append, mem_ite_singleton,
        TrainEvent.logCall.injEq, reduceCtorEq, and_false, false_or, or_false] at hr
      rcases hr with ⟨_, rfl⟩ | ⟨hc, rfl⟩
      · simp only [keys, List.map_cons, List.map_nil] at hlr
        exact absurd hlr (by decide)
      · exact hc
    · intro hc
      refine ⟨[("loss", tl / (((step : Rat) + 1) * (ctx.total_train_batch_size : Rat))),
          ("learning_rate", ctx.lr_scheduler global_step),
          ("epoch", (train_step_body ctx epoch_iter step global_step tl).epoch_logging)],
        ?_, by simp [keys], by simp [keys], by simp [keys]⟩
      exact List.mem_append.mpr (Or.inl (List.mem_append.mpr (Or.inr
        ((mem_ite_singleton _ _ _).mpr ⟨hc, rfl⟩))))
  · intro hc
    exact List.mem_append.mpr (Or.inl (List.mem_append.mpr (Or.inr
      ((mem_ite_singleton _ _ _).mpr ⟨hc, rfl⟩))))

/-- Witness for C6 at concrete inputs. -/
theorem training_log_periodicity_witness :
    0 < ctxW.args.logging_steps ∧
    (((∃ r, TrainEvent.logCall r ∈ (train_step_body ctxW 1 3 4 7).events ∧
        "loss" ∈ keys r ∧ "learning_rate" ∈ keys r ∧ "epoch" ∈ keys r) ↔
      ((0 < 4 ∧ 4 % ctxW.args.logging_steps = 0) ∨
        (4 = 1 ∧ ctxW.args.logging_first_step = true))) ∧
    (((0 < 4 ∧ 4 % ctxW.args.logging_steps = 0) ∨
        (4 = 1 ∧ ctxW.args.logging_first_step = true)) →
      TrainEvent.logCall
          [("loss", (7 : Rat) / ((((3 : Nat) : Rat) + 1) * (ctxW.total_train_batch_size : Rat))),
           ("learning_rate", ctxW.lr_scheduler 4),
           ("epoch", (train_step_body ctxW 1 3 4 7).epoch_logging)]
        ∈ (train_step_body ctxW 1 3 4 7).events)) :=
  ⟨by decide, training_log_periodicity ctxW 1 3 4 7 (by decide)⟩

end TFTrainer
